import Mathlib

/-!
Shallow embedding of the job-app data layer:
`helpers/sql.js` (sqlForPartialUpdate), `models/company.js` and
`models/job.js` (create / findAll filtering / get / update / remove).

JavaScript values that flow through these functions are modelled by `JsVal`
(strings, integer numbers, booleans, null); an absent object property
(JavaScript `undefined`) is modelled by `Option.none` at use sites.
Database rows live in a `DbState`; a boolean `fault` parameter on the
data-access methods models the external database raising a fault on the
query it executes.
-/

/-- A JavaScript value as used by this code base: query-string / JSON body
values and row fields. Numbers are the integers in scope for this API. -/
inductive JsVal : Type
  | vstr : String → JsVal
  | vnum : Int → JsVal
  | vbool : Bool → JsVal
  | vnull : JsVal
deriving DecidableEq, Repr

/-- JavaScript truthiness of a defined value: empty string, 0, false and
null are falsy. -/
def jsTruthy : JsVal → Bool
  | JsVal.vstr s => s ≠ ""
  | JsVal.vnum n => n ≠ 0
  | JsVal.vbool b => b
  | JsVal.vnull => false

/-- Truthiness of a possibly-absent property (`undefined` is falsy). -/
def jsTruthyOpt : Option JsVal → Bool
  | none => false
  | some v => jsTruthy v

/-- Template-literal stringification, as in `` `%${v}%` ``. -/
def jsToString : JsVal → String
  | JsVal.vstr s => s
  | JsVal.vnum n => toString n
  | JsVal.vbool b => if b then "true" else "false"
  | JsVal.vnull => "null"

/-- ToNumber on a string: empty string is 0, an optional sign followed by
decimal digits is that integer, anything else is NaN (`none`). -/
def strToNumber (s : String) : Option Int :=
  if s = "" then some 0
  else if s.startsWith "-" then
    ((s.drop 1).toNat?.map (fun n => -(Int.ofNat n)))
  else (s.toNat?.map Int.ofNat)

/-- JavaScript ToNumber of a possibly-absent value (`none` result is NaN;
`undefined` converts to NaN, `null` to 0, booleans to 0/1). -/
def jsToNumber : Option JsVal → Option Int
  | none => none
  | some JsVal.vnull => some 0
  | some (JsVal.vbool b) => some (if b then 1 else 0)
  | some (JsVal.vnum n) => some n
  | some (JsVal.vstr s) => strToNumber s

/-- Lexicographic order on character lists by code point, as JavaScript
compares strings (a strict prefix is smaller). -/
def charsLt : List Char → List Char → Bool
  | _, [] => false
  | [], _ :: _ => true
  | a :: as, b :: bs =>
      if a.toNat < b.toNat then true
      else if b.toNat < a.toNat then false
      else charsLt as bs

/-- Lexicographic order on strings. -/
def strLt (s t : String) : Bool :=
  charsLt s.data t.data

/-- The JavaScript `>` abstract relational comparison on possibly-absent
values: two strings compare lexicographically; otherwise both sides go
through ToNumber and any NaN makes the comparison false. -/
def jsGt (a b : Option JsVal) : Bool :=
  match a, b with
  | some (JsVal.vstr x), some (JsVal.vstr y) => strLt y x
  | _, _ =>
      match jsToNumber a, jsToNumber b with
      | some m, some n => decide (n < m)
      | _, _ => false

/-- Property lookup on an object modelled as an association list:
`obj[k]`, `none` meaning `undefined`. -/
def jsLookup (l : List (String × JsVal)) (k : String) : Option JsVal :=
  List.lookup k l

/-- The errors this code base raises: the express error classes plus the
two failure modes outside them (a JavaScript TypeError and a fault raised
by the external database driver). -/
inductive JErr : Type
  | badRequest : String → JErr
  | notFound : String → JErr
  | typeError : String → JErr
  | dbFault : String → JErr
deriving DecidableEq, Repr

/-- Whether an error is the NotFound kind. -/
def isNotFoundErr : JErr → Bool
  | JErr.notFound _ => true
  | _ => false

/-- Result of `sqlForPartialUpdate`: the SET fragment and the ordered
bound values. -/
structure SetClause : Type where
  setCols : String
  values : List JsVal
deriving DecidableEq, Repr

/-- The column name used for a data key: `jsToSql[colName] || colName`,
i.e. the translation when the key maps to a truthy (non-empty) column
name in the table, the key itself otherwise. -/
def translateCol (jsToSql : List (String × String)) (k : String) : String :=
  match List.lookup k jsToSql with
  | some s => if s = "" then k else s
  | none => k

/-- `helpers/sql.js` sqlForPartialUpdate. `dataToUpdate` is the input
mapping in insertion order; `jsToSql` is `none` when the caller passes no
translation table (JavaScript `undefined`), in which case the property
access `jsToSql[colName]` in the map callback raises a TypeError — which
only happens when there is at least one key, since the empty-input check
runs first. -/
def sqlForPartialUpdate (dataToUpdate : List (String × JsVal))
    (jsToSql : Option (List (String × String))) : Except JErr SetClause :=
  if dataToUpdate.length = 0 then Except.error (JErr.badRequest "No data")
  else
    match jsToSql with
    | none => Except.error (JErr.typeError "Cannot read properties of undefined")
    | some tbl =>
        Except.ok
          { setCols := String.intercalate ", "
              (dataToUpdate.enum.map (fun p =>
                "\"" ++ translateCol tbl p.2.1 ++ "\"=$" ++ toString (p.1 + 1)))
            values := dataToUpdate.map Prod.snd }

deriving instance DecidableEq for Except

/-- Result of `handleFiltering` (either model): the WHERE-clause string
(empty when no predicate matched) and the ordered bound values. -/
structure FilterResult : Type where
  sqlString : String
  sqlValues : List JsVal
deriving DecidableEq, Repr

namespace Company

/-- The clause/value accumulation of company `handleFiltering`
(`models/company.js`): a running parameter counter, the pushed SQL
predicate strings and the pushed bound values, one conditional push per
recognized key in source order (name, minEmployees, maxEmployees). Takes
the looked-up property values, since those are all the function reads. -/
def clauses (name minE maxE : Option JsVal) : List String × List JsVal :=
  let acc : Nat × List String × List JsVal := (0, [], [])
  let acc :=
    match name with
    | some v =>
        if jsTruthy v then
          (acc.1 + 1,
           acc.2.1 ++ ["LOWER(name) LIKE LOWER($" ++ toString (acc.1 + 1) ++ ")"],
           acc.2.2 ++ [JsVal.vstr ("%" ++ jsToString v ++ "%")])
        else acc
    | none => acc
  let acc :=
    match minE with
    | some v =>
        if jsTruthy v then
          (acc.1 + 1,
           acc.2.1 ++ ["num_employees >= $" ++ toString (acc.1 + 1)],
           acc.2.2 ++ [v])
        else acc
    | none => acc
  let acc :=
    match maxE with
    | some v =>
        if jsTruthy v then
          (acc.1 + 1,
           acc.2.1 ++ ["num_employees <= $" ++ toString (acc.1 + 1)],
           acc.2.2 ++ [v])
        else acc
    | none => acc
  (acc.2.1, acc.2.2)

/-- Company `handleFiltering` on the three property values it reads:
push the clauses, then raise BadRequest when
`queryFilters.minEmployees > queryFilters.maxEmployees` on the raw
values, else join the clauses with AND under WHERE (empty string when
none matched). -/
def handleFilteringCore (name minE maxE : Option JsVal) : Except JErr FilterResult :=
  let p := clauses name minE maxE
  if jsGt minE maxE then
    Except.error (JErr.badRequest
      "Invalid parameters: minEmployees cannot be greater than maxEmployees")
  else
    Except.ok
      { sqlString :=
          if p.1.length > 0 then "WHERE " ++ String.intercalate " AND " p.1 else ""
        sqlValues := p.2 }

/-- Company `handleFiltering` on the query-filters object itself: it only
reads the properties name, minEmployees and maxEmployees. -/
def handleFiltering (queryFilters : List (String × JsVal)) : Except JErr FilterResult :=
  handleFilteringCore (jsLookup queryFilters "name")
    (jsLookup queryFilters "minEmployees") (jsLookup queryFilters "maxEmployees")

end Company

namespace Job

/-- The clause/value accumulation of job `handleFiltering`
(`models/job.js`): one conditional push per recognized key in source
order — title and minSalary by truthiness, hasEquity by strict string
equality with "true" (pushing the constant 0), company_handle by
truthiness. -/
def clauses (title minSal hasEq ch : Option JsVal) : List String × List JsVal :=
  let acc : Nat × List String × List JsVal := (0, [], [])
  let acc :=
    match title with
    | some v =>
        if jsTruthy v then
          (acc.1 + 1,
           acc.2.1 ++ ["LOWER(title) LIKE LOWER($" ++ toString (acc.1 + 1) ++ ")"],
           acc.2.2 ++ [JsVal.vstr ("%" ++ jsToString v ++ "%")])
        else acc
    | none => acc
  let acc :=
    match minSal with
    | some v =>
        if jsTruthy v then
          (acc.1 + 1,
           acc.2.1 ++ ["salary >= $" ++ toString (acc.1 + 1)],
           acc.2.2 ++ [v])
        else acc
    | none => acc
  let acc :=
    if hasEq = some (JsVal.vstr "true") then
      (acc.1 + 1,
       acc.2.1 ++ ["equity > $" ++ toString (acc.1 + 1)],
       acc.2.2 ++ [JsVal.vnum 0])
    else acc
  let acc :=
    match ch with
    | some v =>
        if jsTruthy v then
          (acc.1 + 1,
           acc.2.1 ++ ["company_handle = $" ++ toString (acc.1 + 1)],
           acc.2.2 ++ [v])
        else acc
    | none => acc
  (acc.2.1, acc.2.2)

/-- Job `handleFiltering` on the property values it reads: push the
clauses, then raise BadRequest when
`queryFilters.minEmployees > queryFilters.maxEmployees` (the same raw
comparison as the Company variant, though jobs have no employee count),
else join under WHERE. -/
def handleFilteringCore (title minSal hasEq ch minE maxE : Option JsVal) :
    Except JErr FilterResult :=
  let p := clauses title minSal hasEq ch
  if jsGt minE maxE then
    Except.error (JErr.badRequest
      "Invalid parameters: minEmployees cannot be greater than maxEmployees")
  else
    Except.ok
      { sqlString :=
          if p.1.length > 0 then "WHERE " ++ String.intercalate " AND " p.1 else ""
        sqlValues := p.2 }

/-- Job `handleFiltering` on the query-filters object itself: it only
reads the properties title, minSalary, hasEquity, company_handle,
minEmployees and maxEmployees. -/
def handleFiltering (queryFilters : List (String × JsVal)) : Except JErr FilterResult :=
  handleFilteringCore (jsLookup queryFilters "title")
    (jsLookup queryFilters "minSalary") (jsLookup queryFilters "hasEquity")
    (jsLookup queryFilters "company_handle")
    (jsLookup queryFilters "minEmployees") (jsLookup queryFilters "maxEmployees")

end Job

/-- A row of the companies table. Fields other than the key keep the
JavaScript value written to them (nullable columns included). -/
structure CompanyRow : Type where
  handle : String
  name : JsVal
  description : JsVal
  num_employees : JsVal
  logo_url : JsVal
deriving DecidableEq, Repr

/-- A row of the jobs table; `id` is the serial primary key. -/
structure JobRow : Type where
  id : Int
  title : JsVal
  salary : JsVal
  equity : JsVal
  company_handle : JsVal
deriving DecidableEq, Repr

/-- The database: both tables plus the next serial id for jobs. -/
structure DbState : Type where
  companies : List CompanyRow
  jobs : List JobRow
  nextJobId : Int
deriving DecidableEq, Repr

/-- Input to Company.create (the destructured body fields). -/
structure CompanyIn : Type where
  handle : String
  name : JsVal
  description : JsVal
  numEmployees : JsVal
  logoUrl : JsVal
deriving DecidableEq, Repr

/-- Input to Job.create / Job.dupeCheck (the destructured body fields). -/
structure JobIn : Type where
  title : JsVal
  salary : JsVal
  equity : JsVal
  company_handle : JsVal
deriving DecidableEq, Repr

/-- Apply one translated SET column to a company row; a value for a
column the table does not have leaves the row unchanged (the model keeps
the fault flag for queries the database rejects). -/
def applyCompanyCol (r : CompanyRow) (col : String) (v : JsVal) : CompanyRow :=
  if col = "name" then { r with name := v }
  else if col = "description" then { r with description := v }
  else if col = "num_employees" then { r with num_employees := v }
  else if col = "logo_url" then { r with logo_url := v }
  else r

/-- Apply one SET column to a job row (Job.update passes no translation
table, so this is only reached in states the current code cannot reach;
it is kept for the shape of the UPDATE statement). -/
def applyJobCol (r : JobRow) (col : String) (v : JsVal) : JobRow :=
  if col = "title" then { r with title := v }
  else if col = "salary" then { r with salary := v }
  else if col = "equity" then { r with equity := v }
  else if col = "company_handle" then { r with company_handle := v }
  else r

namespace Company

/-- The jsToSql translation table Company.update passes. -/
def jsToSqlTable : List (String × String) :=
  [("numEmployees", "num_employees"), ("logoUrl", "logo_url")]

/-- Company.create: a SELECT for the handle first; a found row raises
BadRequest, otherwise the INSERT appends the row and the RETURNING row is
the result. -/
def create (st : DbState) (inp : CompanyIn) : Except JErr (CompanyRow × DbState) :=
  match st.companies.find? (fun c => c.handle == inp.handle) with
  | some _ => Except.error (JErr.badRequest ("Duplicate company: " ++ inp.handle))
  | none =>
      let row : CompanyRow :=
        ⟨inp.handle, inp.name, inp.description, inp.numEmployees, inp.logoUrl⟩
      Except.ok (row, { st with companies := st.companies ++ [row] })

/-- Company.get: one SELECT by handle (`fault` models the database
raising on that query); a missing row raises NotFound, otherwise the
company row alone is returned — the function never reads the jobs
table. -/
def get (st : DbState) (fault : Bool) (handle : String) : Except JErr CompanyRow :=
  if fault then Except.error (JErr.dbFault "db fault")
  else
    match st.companies.find? (fun c => c.handle == handle) with
    | some c => Except.ok c
    | none => Except.error (JErr.notFound ("No company: " ++ handle))

/-- Company.update: build the SET clause via sqlForPartialUpdate (its
BadRequest for empty data propagates), then run the UPDATE (`fault`
models the database raising on it); no updated row raises NotFound. -/
def update (st : DbState) (fault : Bool) (handle : String)
    (data : List (String × JsVal)) : Except JErr (CompanyRow × DbState) := do
  let _ ← sqlForPartialUpdate data (some jsToSqlTable)
  if fault then Except.error (JErr.dbFault "db fault")
  else
    match st.companies.find? (fun c => c.handle == handle) with
    | some c =>
        let c2 := data.foldl (fun r p => applyCompanyCol r (translateCol jsToSqlTable p.1) p.2) c
        Except.ok (c2,
          { st with companies :=
              st.companies.map (fun r => if r.handle == handle then c2 else r) })
    | none => Except.error (JErr.notFound ("No company: " ++ handle))

/-- Company.remove: one DELETE RETURNING by handle; no returned row
raises NotFound. -/
def remove (st : DbState) (fault : Bool) (handle : String) : Except JErr DbState :=
  if fault then Except.error (JErr.dbFault "db fault")
  else
    match st.companies.find? (fun c => c.handle == handle) with
    | some _ =>
        Except.ok { st with companies := st.companies.filter (fun c => !(c.handle == handle)) }
    | none => Except.error (JErr.notFound ("No company: " ++ handle))

end Company

/-- Modelled from the spec: the `=` comparison of the external SQL engine
between a stored column value and a bound parameter, as the jobs
duplicate-check WHERE clause uses it. Under SQL three-valued logic a NULL
on either side makes the comparison unknown, which selects no row; a
string bound against a numeric value matches under numeric
interpretation (the engine casts the parameter to the column type);
values of incomparable kinds select nothing. -/
def sqlEq : JsVal → JsVal → Bool
  | JsVal.vnull, _ => false
  | _, JsVal.vnull => false
  | JsVal.vstr a, JsVal.vstr b => a == b
  | JsVal.vnum a, JsVal.vnum b => a == b
  | JsVal.vnum a, JsVal.vstr b => strToNumber b == some a
  | JsVal.vstr a, JsVal.vnum b => strToNumber a == some b
  | JsVal.vbool a, JsVal.vbool b => a == b
  | _, _ => false

namespace Job

/-- Job.dupeCheck: a SELECT for the (title, salary, equity,
company_handle) tuple under the SQL `=` of each field; any matching row
raises BadRequest. A NULL salary or equity on either side makes its
comparison select nothing, so a NULL-bearing tuple never counts as a
duplicate. -/
def dupeCheck (st : DbState) (inp : JobIn) : Except JErr Unit :=
  if st.jobs.any (fun r =>
      sqlEq r.title inp.title && sqlEq r.salary inp.salary &&
      sqlEq r.equity inp.equity && sqlEq r.company_handle inp.company_handle) then
    Except.error (JErr.badRequest "Duplicate Error, job already exists")
  else Except.ok ()

/-- Job.create: dupeCheck first, then the INSERT appends a row under the
generated serial id and returns it. -/
def create (st : DbState) (inp : JobIn) : Except JErr (JobRow × DbState) := do
  let _ ← dupeCheck st inp
  let row : JobRow := ⟨st.nextJobId, inp.title, inp.salary, inp.equity, inp.company_handle⟩
  Except.ok (row,
    { st with jobs := st.jobs ++ [row], nextJobId := st.nextJobId + 1 })

/-- The try/catch in Job.get / Job.update / Job.remove: any error thrown
inside the block — the NotFoundError itself included — is replaced by a
NotFoundError with the given message. -/
def wrapNotFound (msg : String) (r : Except JErr α) : Except JErr α :=
  match r with
  | Except.ok a => Except.ok a
  | Except.error _ => Except.error (JErr.notFound msg)

/-- Job.get: the whole body sits in a try/catch whose handler rethrows
NotFound, so a database fault and a missing row surface identically. -/
def get (st : DbState) (fault : Bool) (id : Int) : Except JErr JobRow :=
  wrapNotFound ("No job with ID: " ++ toString id)
    (if fault then Except.error (JErr.dbFault "db fault")
     else
       match st.jobs.find? (fun r => r.id == id) with
       | some j => Except.ok j
       | none => Except.error (JErr.notFound ("No job with ID: " ++ toString id)))

/-- Job.update: sqlForPartialUpdate runs before the try block and with no
translation table argument, so its errors (BadRequest for empty data, the
TypeError otherwise) propagate unwrapped; only the query phase is inside
the try/catch that rethrows NotFound. -/
def update (st : DbState) (fault : Bool) (id : Int)
    (data : List (String × JsVal)) : Except JErr (JobRow × DbState) := do
  let _ ← sqlForPartialUpdate data none
  wrapNotFound ("No job with ID: " ++ toString id)
    (if fault then Except.error (JErr.dbFault "db fault")
     else
       match st.jobs.find? (fun r => r.id == id) with
       | some j =>
           let j2 := data.foldl (fun r p => applyJobCol r p.1 p.2) j
           Except.ok (j2,
             { st with jobs := st.jobs.map (fun r => if r.id == id then j2 else r) })
       | none => Except.error (JErr.notFound ("No job with id: " ++ toString id)))

/-- Job.remove: one DELETE RETURNING by id inside a try/catch that
rethrows NotFound, so faults and missing rows surface identically. -/
def remove (st : DbState) (fault : Bool) (id : Int) : Except JErr DbState :=
  wrapNotFound ("No job with id: " ++ toString id)
    (if fault then Except.error (JErr.dbFault "db fault")
     else
       match st.jobs.find? (fun r => r.id == id) with
       | some _ => Except.ok { st with jobs := st.jobs.filter (fun r => !(r.id == id)) }
       | none => Except.error (JErr.notFound ("No job with id: " ++ toString id)))

end Job

/-- Modelled from the spec: the SQL LIKE pattern matcher of the external
database engine, which the spec treats as an external collaborator
(`%` matches any character sequence, `_` matches exactly one character,
every other pattern character matches itself). -/
def likeMatch : List Char → List Char → Bool
  | [], s => s.isEmpty
  | p :: ps, s =>
      if p = '%' then s.tails.any (fun t => likeMatch ps t)
      else
        match s with
        | [] => false
        | c :: t => (p = '_' || p = c) && likeMatch ps t

/-- LIKE on strings. -/
def sqlLike (pattern : String) (s : String) : Bool :=
  likeMatch pattern.data s.data

/-- The WHERE string the spec describes: empty when no predicate matched,
else the clauses joined with AND under WHERE. -/
def specWhere (cs : List String) : String :=
  if cs = [] then "" else "WHERE " ++ String.intercalate " AND " cs

/-- Number the active predicates of a filter in order, continuing from a
count of predicates already emitted: the next template is instantiated at
parameter index n + 1. -/
def specIndexClausesFrom (n : Nat) : List ((Nat → String) × JsVal) → List String
  | [] => []
  | p :: ps => p.1 (n + 1) :: specIndexClausesFrom (n + 1) ps

/-- Number the active predicates of a filter in order: the i-th template
is instantiated at parameter index i + 1, ascending from 1. -/
def specIndexClauses (l : List ((Nat → String) × JsVal)) : List String :=
  specIndexClausesFrom 0 l

/-- The bound values of the active predicates, in the same order. -/
def specValuesOf (l : List ((Nat → String) × JsVal)) : List JsVal :=
  l.map Prod.snd

/-- The active company predicates per the spec: one entry per recognized
key whose value is truthy, in the fixed check order name, minEmployees,
maxEmployees, each carrying its clause template and bound value. -/
def specCompanyActive (name minE maxE : Option JsVal) :
    List ((Nat → String) × JsVal) :=
  (if jsTruthyOpt name then
     [(fun n => "LOWER(name) LIKE LOWER($" ++ toString n ++ ")",
       JsVal.vstr ("%" ++ jsToString (name.getD JsVal.vnull) ++ "%"))]
   else []) ++
  (if jsTruthyOpt minE then
     [(fun n => "num_employees >= $" ++ toString n, minE.getD JsVal.vnull)]
   else []) ++
  (if jsTruthyOpt maxE then
     [(fun n => "num_employees <= $" ++ toString n, maxE.getD JsVal.vnull)]
   else [])

/-- The active job predicates per the amended spec: title, minSalary and
company_handle by truthiness, hasEquity exactly when it is the string
"true" (bound to the constant 0), in the fixed check order. -/
def specJobActive (title minSal hasEq ch : Option JsVal) :
    List ((Nat → String) × JsVal) :=
  (if jsTruthyOpt title then
     [(fun n => "LOWER(title) LIKE LOWER($" ++ toString n ++ ")",
       JsVal.vstr ("%" ++ jsToString (title.getD JsVal.vnull) ++ "%"))]
   else []) ++
  (if jsTruthyOpt minSal then
     [(fun n => "salary >= $" ++ toString n, minSal.getD JsVal.vnull)]
   else []) ++
  (if hasEq = some (JsVal.vstr "true") then
     [(fun n => "equity > $" ++ toString n, JsVal.vnum 0)]
   else []) ++
  (if jsTruthyOpt ch then
     [(fun n => "company_handle = $" ++ toString n, ch.getD JsVal.vnull)]
   else [])

/-- Whether `p` is a prefix of `s`, on the underlying characters. -/
def strHasPre (p s : String) : Bool :=
  p.data.isPrefixOf s.data

/-- Joining as the code does (WHERE prefixed when the list is non-empty)
equals the spec WHERE string. -/
theorem whereJoin (cs : List String) :
    (if cs.length > 0 then "WHERE " ++ String.intercalate " AND " cs else "") =
      specWhere cs := by
  cases cs <;> simp [specWhere]

/-- The company clause accumulation produces exactly the spec-side active
predicates, numbered ascending from 1, with their values in order. -/
theorem company_clauses_spec (name minE maxE : Option JsVal) :
    Company.clauses name minE maxE =
      (specIndexClauses (specCompanyActive name minE maxE),
       specValuesOf (specCompanyActive name minE maxE)) := by
  rcases name with _ | nv <;> rcases minE with _ | miv <;> rcases maxE with _ | mav <;>
    simp only [Company.clauses, specCompanyActive, specIndexClauses, specIndexClausesFrom,
      specValuesOf, jsTruthyOpt, Option.getD_some, Option.getD_none] <;>
    split_ifs <;>
    simp_all [specIndexClausesFrom]

/-- The job clause accumulation produces exactly the spec-side active
predicates, numbered ascending from 1, with their values in order. -/
theorem job_clauses_spec (title minSal hasEq ch : Option JsVal) :
    Job.clauses title minSal hasEq ch =
      (specIndexClauses (specJobActive title minSal hasEq ch),
       specValuesOf (specJobActive title minSal hasEq ch)) := by
  rcases title with _ | tv <;> rcases minSal with _ | mv <;> rcases ch with _ | cv <;>
    simp only [Job.clauses, specJobActive, specIndexClauses, specIndexClausesFrom,
      specValuesOf, jsTruthyOpt, Option.getD_some, Option.getD_none] <;>
    split_ifs <;>
    simp_all [specIndexClausesFrom]

/-- The company builder raises BadRequest exactly when the raw
minEmployees/maxEmployees comparison holds. -/
theorem company_badreq_iff (name minE maxE : Option JsVal) :
    (Company.handleFilteringCore name minE maxE =
        Except.error (JErr.badRequest
          "Invalid parameters: minEmployees cannot be greater than maxEmployees")) ↔
      jsGt minE maxE = true := by
  unfold Company.handleFilteringCore
  cases h : jsGt minE maxE <;> simp [h]

/-- The job builder raises BadRequest exactly when the raw
minEmployees/maxEmployees comparison holds. -/
theorem job_badreq_iff (title minSal hasEq ch minE maxE : Option JsVal) :
    (Job.handleFilteringCore title minSal hasEq ch minE maxE =
        Except.error (JErr.badRequest
          "Invalid parameters: minEmployees cannot be greater than maxEmployees")) ↔
      jsGt minE maxE = true := by
  unfold Job.handleFilteringCore
  cases h : jsGt minE maxE <;> simp [h]

/-- A lone percent pattern matches every character list. -/
theorem likeOnePercent (s : List Char) : likeMatch ['%'] s = true := by
  simp [likeMatch, List.any_eq_true]

/-- Extending a matching pattern with a leading percent still matches. -/
theorem likePercentCons (ps s : List Char) (h : likeMatch ps s = true) :
    likeMatch ('%' :: ps) s = true := by
  have h2 : likeMatch ('%' :: ps) s = s.tails.any (fun t => likeMatch ps t) := by
    rw [likeMatch.eq_def]
    exact if_pos rfl
  rw [h2, List.any_eq_true]
  exact ⟨s, (List.mem_tails s s).mpr (List.suffix_refl s), h⟩

/-- Three percents match every character list. -/
theorem likeThreePercent (s : List Char) : likeMatch ['%', '%', '%'] s = true :=
  likePercentCons _ _ (likePercentCons _ _ (likeOnePercent s))

/-- C3 counterexample: the claim says the column is the translation of the
key whenever the key is in the translation table; but with the table
mapping "a" to the empty string, the key "a" is in the table while the
emitted clause uses the key, not the translation, because the code tests
`jsToSql[colName] || colName` by truthiness. -/
theorem c3_translation_counterexample :
    sqlForPartialUpdate [("a", JsVal.vnum 1)] (some [("a", "")]) =
      Except.ok ⟨"\"a\"=$1", [JsVal.vnum 1]⟩ ∧
    List.lookup "a" [("a", "")] = some "" ∧
    ("\"a\"=$1" : String) ≠ "\"\"=$1" := by
  exact ⟨by decide, by decide, by decide⟩

/-- C3 (amended): for every non-empty input mapping and every translation
table, sqlForPartialUpdate returns one clause per input key in insertion
order, the i-th clause being `"<column>"=$<i+1>` with indices strictly
increasing from 1, where the column is the translation of the key when
the key maps to a truthy (non-empty) column name in the table and the key
itself otherwise; the value list is exactly the input values in key
order (null included). -/
theorem c3_setcols_shape (dataToUpdate : List (String × JsVal))
    (tbl : List (String × String)) (hne : dataToUpdate ≠ []) :
    ∃ cols : List String,
      sqlForPartialUpdate dataToUpdate (some tbl) =
        Except.ok ⟨String.intercalate ", " cols, dataToUpdate.map Prod.snd⟩ ∧
      cols.length = dataToUpdate.length ∧
      ∀ i k v, dataToUpdate.get? i = some (k, v) →
        cols.get? i = some ("\"" ++ translateCol tbl k ++ "\"=$" ++ toString (i + 1)) := by
  refine ⟨dataToUpdate.enum.map (fun p =>
      "\"" ++ translateCol tbl p.2.1 ++ "\"=$" ++ toString (p.1 + 1)), ?_, ?_, ?_⟩
  · unfold sqlForPartialUpdate
    rw [if_neg (fun h0 => hne (List.length_eq_zero.mp h0))]
  · simp [List.enum_length]
  · intro i k v h
    rw [List.get?_map, List.get?_enum, h]
    rfl

/-- Witness for the C3 amended theorem at a concrete two-key mapping with
a null value, using the company translation table. -/
theorem c3_setcols_shape_witness :
    (([("numEmployees", JsVal.vnum 3), ("desc", JsVal.vnull)] : List (String × JsVal)) ≠ []) ∧
    (∃ cols : List String,
      sqlForPartialUpdate [("numEmployees", JsVal.vnum 3), ("desc", JsVal.vnull)]
          (some Company.jsToSqlTable) =
        Except.ok ⟨String.intercalate ", " cols,
          ([("numEmployees", JsVal.vnum 3), ("desc", JsVal.vnull)] : List (String × JsVal)).map Prod.snd⟩ ∧
      cols.length = ([("numEmployees", JsVal.vnum 3), ("desc", JsVal.vnull)] : List (String × JsVal)).length ∧
      ∀ i k v, ([("numEmployees", JsVal.vnum 3), ("desc", JsVal.vnull)] : List (String × JsVal)).get? i = some (k, v) →
        cols.get? i = some ("\"" ++ translateCol Company.jsToSqlTable k ++ "\"=$" ++ toString (i + 1))) :=
  ⟨by decide, c3_setcols_shape _ Company.jsToSqlTable (by decide)⟩

/-- C4: for every translation table (a missing one included),
sqlForPartialUpdate on a zero-key mapping fails with BadRequest "No
data", hence so do Company.update and Job.update on an empty partial-data
object, in every database state and whatever the database would do; and a
one-key mapping carrying null is accepted, the null passed through as a
value to write. -/
theorem c4_empty_update_badrequest :
    (∀ jsToSql, sqlForPartialUpdate [] jsToSql = Except.error (JErr.badRequest "No data")) ∧
    (∀ st fault h, Company.update st fault h [] = Except.error (JErr.badRequest "No data")) ∧
    (∀ st fault id, Job.update st fault id [] = Except.error (JErr.badRequest "No data")) ∧
    (∀ tbl k, ∃ r, sqlForPartialUpdate [(k, JsVal.vnull)] (some tbl) = Except.ok r ∧
        r.values = [JsVal.vnull]) :=
  ⟨fun _ => rfl, fun _ _ _ => rfl, fun _ _ _ => rfl, fun _ _ => ⟨_, rfl, rfl⟩⟩

/-- C5: for every filter object, the filter predicate builder of either
entity fails with BadRequest exactly when the raw
`minEmployees > maxEmployees` comparison holds (which requires both
fields to be present, since an absent side converts to NaN and compares
false); the builders are pure and their error precedes any query the
surrounding findAll would execute. -/
theorem c5_minmax_badrequest : ∀ qf : List (String × JsVal),
    ((Company.handleFiltering qf =
        Except.error (JErr.badRequest
          "Invalid parameters: minEmployees cannot be greater than maxEmployees")) ↔
      jsGt (jsLookup qf "minEmployees") (jsLookup qf "maxEmployees") = true) ∧
    ((Job.handleFiltering qf =
        Except.error (JErr.badRequest
          "Invalid parameters: minEmployees cannot be greater than maxEmployees")) ↔
      jsGt (jsLookup qf "minEmployees") (jsLookup qf "maxEmployees") = true) :=
  fun qf => ⟨company_badreq_iff _ _ _, job_badreq_iff _ _ _ _ _ _⟩

/-- C6 counterexample: hasEquity is a recognized Job filter key checked in
the fixed order the claim lists, and the string "yes" is truthy; yet the
Job builder emits no clause for it, because the hasEquity test is strict
string equality with "true", not truthiness as the claim states. -/
theorem c6_truthy_hasEquity_counterexample :
    jsTruthy (JsVal.vstr "yes") = true ∧
    Job.handleFiltering [("hasEquity", JsVal.vstr "yes")] = Except.ok ⟨"", []⟩ :=
  ⟨by decide, by decide⟩

/-- C6 (amended): unless the raw minEmployees/maxEmployees comparison
raises BadRequest, each builder returns the WHERE clause joining with AND
exactly one clause per recognized key that passes its activation test —
truthiness for every key except Job hasEquity, which activates exactly on
the string "true" — in the fixed check order name/title, then
minEmployees/minSalary, then maxEmployees/hasEquity, then company_handle,
each clause bound to a distinct parameter index ascending from 1, the
bound values aligned in the same order (empty string when no clause
matched); and each builder reads only its recognized keys, so
unrecognized keys have no effect. -/
theorem c6_filter_builder_spec :
    (∀ name minE maxE : Option JsVal,
      Company.handleFilteringCore name minE maxE =
        if jsGt minE maxE then
          Except.error (JErr.badRequest
            "Invalid parameters: minEmployees cannot be greater than maxEmployees")
        else
          Except.ok ⟨specWhere (specIndexClauses (specCompanyActive name minE maxE)),
            specValuesOf (specCompanyActive name minE maxE)⟩) ∧
    (∀ title minSal hasEq ch minE maxE : Option JsVal,
      Job.handleFilteringCore title minSal hasEq ch minE maxE =
        if jsGt minE maxE then
          Except.error (JErr.badRequest
            "Invalid parameters: minEmployees cannot be greater than maxEmployees")
        else
          Except.ok ⟨specWhere (specIndexClauses (specJobActive title minSal hasEq ch)),
            specValuesOf (specJobActive title minSal hasEq ch)⟩) ∧
    (∀ qf, Company.handleFiltering qf =
      Company.handleFilteringCore (jsLookup qf "name") (jsLookup qf "minEmployees")
        (jsLookup qf "maxEmployees")) ∧
    (∀ qf, Job.handleFiltering qf =
      Job.handleFilteringCore (jsLookup qf "title") (jsLookup qf "minSalary")
        (jsLookup qf "hasEquity") (jsLookup qf "company_handle")
        (jsLookup qf "minEmployees") (jsLookup qf "maxEmployees")) := by
  refine ⟨?_, ?_, fun qf => rfl, fun qf => rfl⟩
  · intro name minE maxE
    simp only [Company.handleFilteringCore, company_clauses_spec]
    cases h : jsGt minE maxE <;> simp [h, whereJoin]
  · intro title minSal hasEq ch minE maxE
    simp only [Job.handleFilteringCore, job_clauses_spec]
    cases h : jsGt minE maxE <;> simp [h, whereJoin]

/-- C7: the Job filter builder emits a clause of the form `equity > $n`
exactly when hasEquity equals the string "true" under string comparison —
for any other value (boolean true included, which is truthy but not the
string) no equity predicate is added; and when it is added it is bound to
the constant 0, restricting rows to equity strictly greater than 0. -/
theorem c7_equity_clause_iff :
    (∀ title minSal hasEq ch : Option JsVal,
      ((Job.clauses title minSal hasEq ch).1.any (fun c => strHasPre "equity > $" c)) =
        decide (hasEq = some (JsVal.vstr "true"))) ∧
    (∀ title minSal ch : Option JsVal, ∃ n : Nat,
      ("equity > $" ++ toString n) ∈ (Job.clauses title minSal (some (JsVal.vstr "true")) ch).1 ∧
      JsVal.vnum 0 ∈ (Job.clauses title minSal (some (JsVal.vstr "true")) ch).2) := by
  constructor
  · intro title minSal hasEq ch
    rw [job_clauses_spec]
    by_cases he : hasEq = some (JsVal.vstr "true") <;>
      by_cases ht : jsTruthyOpt title = true <;>
        by_cases hm : jsTruthyOpt minSal = true <;>
          by_cases hc : jsTruthyOpt ch = true <;>
            simp_all [specJobActive, specIndexClauses, specIndexClausesFrom] <;> decide
  · intro title minSal ch
    rw [job_clauses_spec]
    by_cases ht : jsTruthyOpt title = true <;>
      by_cases hm : jsTruthyOpt minSal = true <;>
        by_cases hc : jsTruthyOpt ch = true <;>
          first
            | (refine ⟨1, ?_, ?_⟩ <;> simp_all [specJobActive, specIndexClauses, specIndexClausesFrom, specValuesOf] <;> done)
            | (refine ⟨2, ?_, ?_⟩ <;> simp_all [specJobActive, specIndexClauses, specIndexClausesFrom, specValuesOf] <;> done)
            | (refine ⟨3, ?_, ?_⟩ <;> simp_all [specJobActive, specIndexClauses, specIndexClausesFrom, specValuesOf] <;> done)

/-- C9: the min/max validity check of both builders compares the raw
filter values, so two string values compare lexicographically: the
builders fail exactly when maxEmployees precedes minEmployees in
lexicographic order; concretely "9" with "10" raises BadRequest although
9 is at most 10 numerically, while "100" with "20" raises no error
although 100 exceeds 20 numerically. -/
theorem c9_raw_string_comparison :
    (∀ s t : String,
      (Company.handleFiltering [("minEmployees", JsVal.vstr s), ("maxEmployees", JsVal.vstr t)] =
          Except.error (JErr.badRequest
            "Invalid parameters: minEmployees cannot be greater than maxEmployees")) ↔
        strLt t s = true) ∧
    (∀ s t : String,
      (Job.handleFiltering [("minEmployees", JsVal.vstr s), ("maxEmployees", JsVal.vstr t)] =
          Except.error (JErr.badRequest
            "Invalid parameters: minEmployees cannot be greater than maxEmployees")) ↔
        strLt t s = true) ∧
    Company.handleFiltering [("minEmployees", JsVal.vstr "9"), ("maxEmployees", JsVal.vstr "10")] =
      Except.error (JErr.badRequest
        "Invalid parameters: minEmployees cannot be greater than maxEmployees") ∧
    (9 : Int) ≤ 10 ∧
    Company.handleFiltering [("minEmployees", JsVal.vstr "100"), ("maxEmployees", JsVal.vstr "20")] =
      Except.ok ⟨"WHERE num_employees >= $1 AND num_employees <= $2",
        [JsVal.vstr "100", JsVal.vstr "20"]⟩ ∧
    (100 : Int) > 20 ∧
    Job.handleFiltering [("minEmployees", JsVal.vstr "9"), ("maxEmployees", JsVal.vstr "10")] =
      Except.error (JErr.badRequest
        "Invalid parameters: minEmployees cannot be greater than maxEmployees") ∧
    Job.handleFiltering [("minEmployees", JsVal.vstr "100"), ("maxEmployees", JsVal.vstr "20")] =
      Except.ok ⟨"", []⟩ :=
  ⟨fun s t => company_badreq_iff _ _ _, fun s t => job_badreq_iff _ _ _ _ _ _,
   by decide, by decide, by decide, by decide, by decide, by decide⟩

/-- C10: the name/title substring filter wraps the raw caller value in
percent signs with no escaping; a value of "%" therefore produces the
pattern "%%%", which the database LIKE matcher (modelled from the spec as
the external engine) accepts for every row, and an underscore in the
value acts as a single-character wildcard, matching "abc" even though
"abc" contains no underscore. -/
theorem c10_like_wildcards :
    (∀ s : String, Company.clauses (some (JsVal.vstr s)) none none =
      if s = "" then ([], [])
      else (["LOWER(name) LIKE LOWER($1)"], [JsVal.vstr ("%" ++ s ++ "%")])) ∧
    (∀ s : String, Job.clauses (some (JsVal.vstr s)) none none none =
      if s = "" then ([], [])
      else (["LOWER(title) LIKE LOWER($1)"], [JsVal.vstr ("%" ++ s ++ "%")])) ∧
    ("%" ++ "%" ++ "%" : String) = "%%%" ∧
    (∀ s : String, sqlLike "%%%" s = true) ∧
    sqlLike "%a_c%" "abc" = true ∧
    ("abc".data.contains '_') = false := by
  refine ⟨?_, ?_, rfl, fun s => likeThreePercent s.data, by decide, by decide⟩
  · intro s
    by_cases h : s = "" <;> simp [Company.clauses, jsTruthy, jsToString, h] <;> try decide
  · intro s
    by_cases h : s = "" <;> simp [Job.clauses, jsTruthy, jsToString, h] <;> try decide

/-- C1 evaluation: Company.get never reads the jobs table — its result is
identical for any two jobs tables in the same state — and at a state
holding company "c1" with one job at "c1" it returns the bare company
record with no jobs summary, while an absent handle does fail with
NotFound; the function thus contradicts its own doc comment, which
promises an embedded jobs list. -/
theorem c1_company_get_no_jobs :
    (∀ (cs : List CompanyRow) (j1 j2 : List JobRow) (n1 n2 : Int) (fault : Bool) (h : String),
      Company.get ⟨cs, j1, n1⟩ fault h = Company.get ⟨cs, j2, n2⟩ fault h) ∧
    Company.get
        ⟨[⟨"c1", JsVal.vstr "C1 Inc", JsVal.vstr "Desc", JsVal.vnum 10, JsVal.vnull⟩],
         [⟨1, JsVal.vstr "test job", JsVal.vnum 60000, JsVal.vstr "0", JsVal.vstr "c1"⟩], 2⟩
        false "c1" =
      Except.ok ⟨"c1", JsVal.vstr "C1 Inc", JsVal.vstr "Desc", JsVal.vnum 10, JsVal.vnull⟩ ∧
    Company.get ⟨[], [], 1⟩ false "nope" = Except.error (JErr.notFound "No company: nope") :=
  ⟨fun _ _ _ _ _ _ _ => rfl, by decide, by decide⟩

/-- C2 counterexample: an underlying data-access fault in Company.get
surfaces as the raw database fault, not as NotFound, because the Company
methods have no try/catch around their queries. -/
theorem c2_company_fault_counterexample :
    Company.get ⟨[⟨"c1", JsVal.vstr "C1 Inc", JsVal.vstr "D", JsVal.vnum 1, JsVal.vnull⟩], [], 1⟩
        true "c1" =
      Except.error (JErr.dbFault "db fault") ∧
    isNotFoundErr (JErr.dbFault "db fault") = false := by
  decide

/-- C2 (amended): Job.get and Job.remove raise every failure — keyed row
absent or underlying fault — as NotFound and never anything else, because
their whole body sits in a try/catch that rethrows NotFound; Job.update
fails before its try block, with BadRequest on an empty mapping and a
TypeError on any non-empty one (no translation table is passed to
sqlForPartialUpdate); Company.get, Company.update and Company.remove
raise NotFound exactly when the keyed row is absent, and let an
underlying fault propagate unmapped. -/
theorem c2_error_mapping :
    (∀ (st : DbState) (f : Bool) (id : Int),
      (∃ r, Job.get st f id = Except.ok r) ∨
      Job.get st f id = Except.error (JErr.notFound ("No job with ID: " ++ toString id))) ∧
    (∀ (st : DbState) (f : Bool) (id : Int),
      (∃ st2, Job.remove st f id = Except.ok st2) ∨
      Job.remove st f id = Except.error (JErr.notFound ("No job with id: " ++ toString id))) ∧
    (∀ (st : DbState) (f : Bool) (id : Int),
      Job.update st f id [] = Except.error (JErr.badRequest "No data")) ∧
    (∀ (st : DbState) (f : Bool) (id : Int) (k : String) (v : JsVal) (d : List (String × JsVal)),
      Job.update st f id ((k, v) :: d) =
        Except.error (JErr.typeError "Cannot read properties of undefined")) ∧
    (∀ (st : DbState) (h : String),
      Company.get st true h = Except.error (JErr.dbFault "db fault") ∧
      Company.remove st true h = Except.error (JErr.dbFault "db fault") ∧
      isNotFoundErr (JErr.dbFault "db fault") = false) ∧
    (∀ (st : DbState) (h : String),
      (Company.get st false h = Except.error (JErr.notFound ("No company: " ++ h)) ↔
        st.companies.find? (fun c => c.handle == h) = none) ∧
      (Company.remove st false h = Except.error (JErr.notFound ("No company: " ++ h)) ↔
        st.companies.find? (fun c => c.handle == h) = none)) ∧
    (∀ (st : DbState) (h : String) (k : String) (v : JsVal) (d : List (String × JsVal)),
      Company.update st true h ((k, v) :: d) = Except.error (JErr.dbFault "db fault") ∧
      (Company.update st false h ((k, v) :: d) =
          Except.error (JErr.notFound ("No company: " ++ h)) ↔
        st.companies.find? (fun c => c.handle == h) = none)) := by
  refine ⟨?_, ?_, fun st f id => rfl, fun st f id k v d => rfl, ?_, ?_, ?_⟩
  · intro st f id
    cases f
    · cases hf : st.jobs.find? (fun r => r.id == id) with
      | some j => exact Or.inl ⟨j, by simp [Job.get, Job.wrapNotFound, hf]⟩
      | none => exact Or.inr (by simp [Job.get, Job.wrapNotFound, hf])
    · exact Or.inr rfl
  · intro st f id
    cases f
    · cases hf : st.jobs.find? (fun r => r.id == id) with
      | some j =>
          exact Or.inl ⟨⟨st.companies, st.jobs.filter (fun r => !(r.id == id)), st.nextJobId⟩,
            by simp [Job.remove, Job.wrapNotFound, hf]⟩
      | none => exact Or.inr (by simp [Job.remove, Job.wrapNotFound, hf])
    · exact Or.inr rfl
  · exact fun st h => ⟨rfl, rfl, rfl⟩
  · intro st h
    constructor
    · cases hf : st.companies.find? (fun c => c.handle == h) <;>
        simp [Company.get, hf]
    · cases hf : st.companies.find? (fun c => c.handle == h) <;>
        simp [Company.remove, hf]
  · intro st h k v d
    constructor
    · rfl
    · cases hf : st.companies.find? (fun c => c.handle == h) <;>
        simp [Company.update, sqlForPartialUpdate, hf, Bind.bind, Except.bind]

/-- C8 counterexample: at a state holding the job ("t", NULL, "0", "c1"),
creating a job whose (title, salary, equity, company_handle) tuple
exactly matches that row — each field Lean-equal, as the four conjuncts
record — succeeds and inserts the exact duplicate instead of failing
with BadRequest, because the duplicate-check query compares salary with
SQL `=` and `salary = NULL` selects no row. -/
theorem c8_null_dupe_counterexample :
    (⟨1, JsVal.vstr "t", JsVal.vnull, JsVal.vstr "0", JsVal.vstr "c1"⟩ : JobRow).title =
      (⟨JsVal.vstr "t", JsVal.vnull, JsVal.vstr "0", JsVal.vstr "c1"⟩ : JobIn).title ∧
    (⟨1, JsVal.vstr "t", JsVal.vnull, JsVal.vstr "0", JsVal.vstr "c1"⟩ : JobRow).salary =
      (⟨JsVal.vstr "t", JsVal.vnull, JsVal.vstr "0", JsVal.vstr "c1"⟩ : JobIn).salary ∧
    (⟨1, JsVal.vstr "t", JsVal.vnull, JsVal.vstr "0", JsVal.vstr "c1"⟩ : JobRow).equity =
      (⟨JsVal.vstr "t", JsVal.vnull, JsVal.vstr "0", JsVal.vstr "c1"⟩ : JobIn).equity ∧
    (⟨1, JsVal.vstr "t", JsVal.vnull, JsVal.vstr "0", JsVal.vstr "c1"⟩ : JobRow).company_handle =
      (⟨JsVal.vstr "t", JsVal.vnull, JsVal.vstr "0", JsVal.vstr "c1"⟩ : JobIn).company_handle ∧
    Job.create ⟨[], [⟨1, JsVal.vstr "t", JsVal.vnull, JsVal.vstr "0", JsVal.vstr "c1"⟩], 2⟩
        ⟨JsVal.vstr "t", JsVal.vnull, JsVal.vstr "0", JsVal.vstr "c1"⟩ =
      Except.ok (⟨2, JsVal.vstr "t", JsVal.vnull, JsVal.vstr "0", JsVal.vstr "c1"⟩,
        ⟨[], [⟨1, JsVal.vstr "t", JsVal.vnull, JsVal.vstr "0", JsVal.vstr "c1"⟩,
              ⟨2, JsVal.vstr "t", JsVal.vnull, JsVal.vstr "0", JsVal.vstr "c1"⟩], 3⟩) := by
  decide

/-- C8 (amended): in every database state, Job.create fails with
BadRequest and returns no new state when some row matches the input
tuple field-for-field under the SQL `=` the duplicate-check query uses —
a comparison that never holds when a compared field of the row or the
input is NULL, so a NULL-bearing tuple is never treated as a duplicate —
and otherwise inserts at the generated serial id and returns the created
record; Company.create fails with BadRequest when the handle exists and
otherwise inserts and returns the created record. -/
theorem c8_create_duplicate_check :
    (∀ v, sqlEq JsVal.vnull v = false ∧ sqlEq v JsVal.vnull = false) ∧
    ∀ (st : DbState) (jinp : JobIn) (cinp : CompanyIn),
      ((∃ r ∈ st.jobs, sqlEq r.title jinp.title = true ∧ sqlEq r.salary jinp.salary = true ∧
          sqlEq r.equity jinp.equity = true ∧ sqlEq r.company_handle jinp.company_handle = true) →
        Job.create st jinp =
          Except.error (JErr.badRequest "Duplicate Error, job already exists")) ∧
      ((¬ ∃ r ∈ st.jobs, sqlEq r.title jinp.title = true ∧ sqlEq r.salary jinp.salary = true ∧
          sqlEq r.equity jinp.equity = true ∧ sqlEq r.company_handle jinp.company_handle = true) →
        Job.create st jinp = Except.ok
          (⟨st.nextJobId, jinp.title, jinp.salary, jinp.equity, jinp.company_handle⟩,
           ⟨st.companies,
            st.jobs ++ [⟨st.nextJobId, jinp.title, jinp.salary, jinp.equity, jinp.company_handle⟩],
            st.nextJobId + 1⟩)) ∧
      ((∃ c ∈ st.companies, c.handle = cinp.handle) →
        Company.create st cinp =
          Except.error (JErr.badRequest ("Duplicate company: " ++ cinp.handle))) ∧
      ((¬ ∃ c ∈ st.companies, c.handle = cinp.handle) →
        Company.create st cinp = Except.ok
          (⟨cinp.handle, cinp.name, cinp.description, cinp.numEmployees, cinp.logoUrl⟩,
           ⟨st.companies ++ [⟨cinp.handle, cinp.name, cinp.description, cinp.numEmployees, cinp.logoUrl⟩],
            st.jobs, st.nextJobId⟩)) := by
  refine ⟨fun v => ⟨by cases v <;> rfl, by cases v <;> rfl⟩, ?_⟩
  intro st jinp cinp
  have hj : (st.jobs.any (fun r =>
      sqlEq r.title jinp.title && sqlEq r.salary jinp.salary &&
      sqlEq r.equity jinp.equity && sqlEq r.company_handle jinp.company_handle) = true) ↔
      (∃ r ∈ st.jobs, sqlEq r.title jinp.title = true ∧ sqlEq r.salary jinp.salary = true ∧
        sqlEq r.equity jinp.equity = true ∧ sqlEq r.company_handle jinp.company_handle = true) := by
    simp [List.any_eq_true, Bool.and_eq_true, and_assoc]
  refine ⟨?_, ?_, ?_, ?_⟩
  · intro hx
    simp only [Job.create, Job.dupeCheck, if_pos (hj.mpr hx)]
    rfl
  · intro hx
    simp only [Job.create, Job.dupeCheck,
      if_neg (fun hc => hx (hj.mp hc))]
    rfl
  · rintro ⟨c, hcm, he⟩
    cases hf : st.companies.find? (fun c => c.handle == cinp.handle) with
    | none =>
        exact absurd (by simpa using List.find?_eq_none.mp hf c hcm) (by simp [he])
    | some c2 => simp [Company.create, hf]
  · intro hx
    have hf : st.companies.find? (fun c => c.handle == cinp.handle) = none :=
      List.find?_eq_none.mpr (fun x hxm => by
        simp only [beq_iff_eq]
        exact fun he => hx ⟨x, hxm, he⟩)
    simp [Company.create, hf]

/-- Witness for the C8 amended theorem at concrete states: a one-job
state (all fields non-NULL) rejecting the SQL-equal tuple, a one-company
state rejecting the existing handle, and an empty state accepting an
insert. -/
theorem c8_create_duplicate_check_witness :
    Job.create ⟨[], [⟨1, JsVal.vstr "t", JsVal.vnum 5, JsVal.vstr "0", JsVal.vstr "c1"⟩], 2⟩
        ⟨JsVal.vstr "t", JsVal.vnum 5, JsVal.vstr "0", JsVal.vstr "c1"⟩ =
      Except.error (JErr.badRequest "Duplicate Error, job already exists") ∧
    Company.create ⟨[⟨"c1", JsVal.vstr "N", JsVal.vstr "D", JsVal.vnum 1, JsVal.vnull⟩], [], 1⟩
        ⟨"c1", JsVal.vstr "N2", JsVal.vstr "D2", JsVal.vnum 2, JsVal.vnull⟩ =
      Except.error (JErr.badRequest ("Duplicate company: " ++ "c1")) ∧
    Job.create ⟨[], [], 1⟩ ⟨JsVal.vstr "t", JsVal.vnum 5, JsVal.vstr "0", JsVal.vstr "c1"⟩ =
      Except.ok (⟨1, JsVal.vstr "t", JsVal.vnum 5, JsVal.vstr "0", JsVal.vstr "c1"⟩,
        ⟨[], [⟨1, JsVal.vstr "t", JsVal.vnum 5, JsVal.vstr "0", JsVal.vstr "c1"⟩], 2⟩) :=
  ⟨((c8_create_duplicate_check.2
      ⟨[], [⟨1, JsVal.vstr "t", JsVal.vnum 5, JsVal.vstr "0", JsVal.vstr "c1"⟩], 2⟩
      ⟨JsVal.vstr "t", JsVal.vnum 5, JsVal.vstr "0", JsVal.vstr "c1"⟩
      ⟨"c1", JsVal.vnull, JsVal.vnull, JsVal.vnull, JsVal.vnull⟩).1) (by decide),
   ((c8_create_duplicate_check.2
      ⟨[⟨"c1", JsVal.vstr "N", JsVal.vstr "D", JsVal.vnum 1, JsVal.vnull⟩], [], 1⟩
      ⟨JsVal.vstr "t", JsVal.vnum 5, JsVal.vstr "0", JsVal.vstr "c1"⟩
      ⟨"c1", JsVal.vstr "N2", JsVal.vstr "D2", JsVal.vnum 2, JsVal.vnull⟩).2.2.1) (by decide),
   ((c8_create_duplicate_check.2 ⟨[], [], 1⟩
      ⟨JsVal.vstr "t", JsVal.vnum 5, JsVal.vstr "0", JsVal.vstr "c1"⟩
      ⟨"c1", JsVal.vnull, JsVal.vnull, JsVal.vnull, JsVal.vnull⟩).2.1) (by decide)⟩
